import Mathlib

set_option maxRecDepth 100000

/-!
# Verification of the byte-stream Converter

Shallow embedding of the C++ `Converter` program (`src/main.cpp`): a worker
thread reads encoded bytes from a `SourceInterface`, decodes each byte
(2-bit kind in bits 7-6, 6-bit payload in bits 5-0) into a string, writes the
string to a `SinkInterface`, and pauses on a condition variable after each
emitted string.  `start()`/`stop()` manage the worker's lifecycle.

The development has three parts:
* the pure byte codec (the body of `Converter::run`'s switch);
* a sequential semantics of the worker loop over a finite source, recording
  the observable events (reads, writes, waits) in order;
* a lifecycle state machine for `start`/`stop`/worker-exit, and an
  interleaved transition system for the `stop()` / `cv_.wait` protocol.
-/

/-- Value of the C++ `char` holding byte value `b` (0-255) on a platform with
signed 8-bit `char`, after the usual promotion to `int`:
bytes `≥ 128` are read as negative two's-complement values. -/
def charVal (b : Nat) : Int :=
  if b < 128 then (b : Int) else (b : Int) - 256

/-- `((byte >> 6) & 0x03)` from `Converter::run`: arithmetic right shift of the
promoted `char` by 6 (floor division by 64) and masking to the low 2 bits
(for two's complement, `x & 3` is `x` modulo 4 taken non-negative). -/
def typeBits (b : Nat) : Int :=
  (Int.fdiv (charVal b) 64).emod 4

/-- `(byte & 0x3f)` from `Converter::run`: the low 6 bits of the promoted
`char` (for two's complement, `x & 0x3f` is `x` modulo 64 taken
non-negative). -/
def dataBits (b : Nat) : Int :=
  (charVal b).emod 64

/-- `static_cast<int8_t>` applied to an `int`: reduce modulo 256 into the
range [-128, 127]. -/
def int8cast (x : Int) : Int :=
  (x + 128).emod 256 - 128

/-- The decode-and-render step of `Converter::run` (the `switch (type)`), for
one byte with byte value `b` (0-255).  `some s` means the loop builds the
string `s` and passes it to the sink; `none` is the `default:` branch
(reserved kind, `continue`, nothing emitted).
* kind `0b00`: `std::to_string(data)` with `data` a non-negative `int`;
* kind `0b01`: `std::to_string(static_cast<int8_t>(data))`;
* kind `0b10`: `std::string(1, 'a' + data)`, a one-character string whose
  character code is `0x61 + data`. -/
def decodeByte (b : Nat) : Option String :=
  let type := typeBits b
  let data := dataBits b
  if type = 0 then some (toString data)
  else if type = 1 then some (toString (int8cast data))
  else if type = 2 then some (String.singleton (Char.ofNat (0x61 + data).toNat))
  else none

/-- Kind field of an encoded byte as a natural number: bits 7-6.  Used to
state claims about "kind bits"; agrees with the C++ computation `typeBits`
(see `typeBits_eq_kindOf`). -/
def kindOf (b : Nat) : Nat :=
  (b >>> 6) &&& 3

/-- Payload field of an encoded byte: bits 5-0. -/
def payloadOf (b : Nat) : Nat :=
  b &&& 0x3f

/-- Wire format of §6: an encoded byte is `kind` in bits 7-6 and `payload` in
bits 5-0. -/
def mkByte (kind payload : Nat) : Nat :=
  (kind <<< 6) ||| (payload &&& 0x3f)

theorem typeBits_eq_kindOf : ∀ b : Fin 256, typeBits b.val = (kindOf b.val : Int) := by
  decide

theorem dataBits_eq_payloadOf : ∀ b : Fin 256, dataBits b.val = (payloadOf b.val : Int) := by
  decide

/-! ## Sequential semantics of the worker loop

`Converter::run` repeats, while `running_` is set: acquire the lock, read a
byte (on failure `break`), decode it (reserved kind: `continue`), write the
string to the sink, and `cv_.wait(lock)`.  We model a run in which `stop()` is
never invoked (`running_` stays `true`) and every wait is eventually signalled,
against a source that yields the bytes of a list in order and then reports
end-of-stream.  `runEvents` records the loop's observable actions in program
order. -/

/-- One observable action of the worker loop: a successful `source_.read`
yielding byte `b`, a failed read (end-of-stream), a `sink_.write` of string
`s`, or blocking in `cv_.wait`. -/
inductive Event where
  | readByte (b : Nat)
  | readEOS
  | wrote (s : String)
  | waited
deriving DecidableEq, BEq

/-- The ordered event trace of `Converter::run` against a source delivering
the bytes `bs` and then end-of-stream.  Each iteration reads one byte; a
reserved byte (`decodeByte` = `none`, the `default: continue` branch) produces
no write and skips the wait; any other byte produces one write followed by one
wait; end-of-stream (`source_.read` returning `false`) terminates the loop. -/
def runEvents : List Nat → List Event
  | [] => [Event.readEOS]
  | b :: rest =>
    Event.readByte b ::
      match decodeByte b with
      | none => runEvents rest
      | some s => Event.wrote s :: Event.waited :: runEvents rest

/-- The strings passed to the sink, in order, extracted from a trace. -/
def writesOf (events : List Event) : List String :=
  events.filterMap fun e =>
    match e with
    | Event.wrote s => some s
    | _ => none

/-- Rendering of one byte as the specification describes it (§4.1/§6 and
claim C1): split the byte into kind (bits 7-6) and payload (bits 5-0); kind 00
renders the payload as an unsigned decimal, kind 01 renders the payload
reinterpreted through 8-bit two's complement as a signed decimal, kind 10
renders the single character with code `'a' + payload`, and kind 11
(Reserved) produces nothing. -/
def specRender (b : Nat) : Option String :=
  let kind := kindOf b
  let payload := payloadOf b
  if kind = 0 then some (toString payload)
  else if kind = 1 then some (toString (charVal payload))
  else if kind = 2 then some (String.singleton (Char.ofNat (97 + payload)))
  else none

theorem decodeByte_eq_specRender : ∀ b : Fin 256, decodeByte b.val = specRender b.val := by
  decide

example : decodeByte 0b00000101 = some "5" := by decide
example : decodeByte 0b10000001 = some "b" := by decide
example : decodeByte 0b11111111 = none := by decide
example : decodeByte 0b01000011 = some "3" := by decide
example : writesOf (runEvents [5, 255, 129]) = ["5", "b"] := by decide

/-! ## Lifecycle state machine

Atomic model of `Converter::start`, `Converter::stop` and the worker's
end-of-stream exit, for call sequences issued from the owning context while
the worker is either not yet spawned, parked, or already finished.  `spawns`
is a history variable counting `std::thread` constructions, used to state
"exactly one worker task". -/

/-- Status of the `thread_` member. -/
inductive WorkerStatus where
  | noWorker   -- default-constructed or already joined: not joinable
  | active     -- spawned and still executing `run`
  | finished   -- exited `run` (the EOS `break`) but not yet joined
deriving DecidableEq

/-- The `Converter`'s lifecycle-relevant state: the `running_` flag and the
worker thread's status. -/
structure ConvState where
  running : Bool
  worker : WorkerStatus
  spawns : Nat
deriving DecidableEq

namespace Converter

/-- `Converter::start`: `if (running_) return;` then `running_ = true;` and
`thread_ = std::thread([this]() { run(); });`. -/
def start (c : ConvState) : ConvState :=
  if c.running then c
  else { running := true, worker := WorkerStatus.active, spawns := c.spawns + 1 }

/-- `Converter::stop`: `if (!running_) return;` then `running_ = false;`,
`cv_.notify_all();`, and `if (thread_.joinable()) thread_.join();`
(after a completed join the thread is no longer joinable). -/
def stop (c : ConvState) : ConvState :=
  if !c.running then c
  else { running := false, worker := WorkerStatus.noWorker, spawns := c.spawns }

/-- The worker's end-of-stream exit in `Converter::run`: `source_.read`
returns `false`, the loop `break`s and the worker terminates; nothing in that
path writes `running_`, which keeps whatever value it had. -/
def eosExit (c : ConvState) : ConvState :=
  { c with worker := WorkerStatus.finished }

/-- Whether a `stop()` call on state `c` returns promptly and without
throwing: it does when it takes the `!running_` early return, when
`thread_.joinable()` is false (join skipped, so no `std::system_error`), or
when the worker has already terminated (join returns at once).  Only a join
on a still-active worker has to wait for the worker (that case is the
subject of the interleaved model below). -/
def stopSafe (c : ConvState) : Bool :=
  if !c.running then true
  else match c.worker with
    | WorkerStatus.active => false
    | _ => true

end Converter

example : (Converter.stop (Converter.start ⟨false, WorkerStatus.noWorker, 0⟩)).running = false := by decide
example : Converter.stopSafe (Converter.eosExit (Converter.start ⟨false, WorkerStatus.noWorker, 0⟩)) = true := by decide

/-! ## The stop/wait protocol, interleaved

Small-step model of one worker thread executing `Converter::run`
concurrently with one caller executing `Converter::stop`.  The worker's
mutex is left implicit: `stop()` never touches `mutex` (its writes to
`running_` and its `cv_.notify_all()` are performed without holding it), so
the lock never blocks the stopper and only sequences the worker's own
actions.  A `cv_.notify_all()` delivered while the worker is not blocked
inside `cv_.wait` wakes nobody and is lost — `cv_.wait(lock)` is called
without a predicate, so a lost notification is never re-checked. -/

/-- Program counter of the worker inside `Converter::run`. -/
inductive WPc where
  | check      -- at `while (running_)`
  | reading    -- holds the lock, about to call `source_.read`
  | writing    -- decoded a non-reserved byte, about to call `sink_.write`
  | beforeWait -- returned from `sink_.write`, about to call `cv_.wait(lock)`
  | waiting    -- blocked inside `cv_.wait`
  | exited     -- left `run`
deriving DecidableEq

/-- Program counter of the caller of `Converter::stop`. -/
inductive SPc where
  | idle     -- `stop()` not yet entered
  | cleared  -- passed the `!running_` guard and executed `running_ = false`
  | notified -- executed `cv_.notify_all()`
  | joining  -- blocked in `thread_.join()`
  | done     -- returned from `stop()`
deriving DecidableEq

/-- Joint state of the two threads and the shared `running_` flag. -/
structure Sys where
  running : Bool
  wpc : WPc
  spc : SPc
deriving DecidableEq

/-- All states reachable in one atomic action of either thread.  Worker
actions come from `Converter::run` line by line; stopper actions from
`Converter::stop`.  The source is nondeterministic at `reading`: it may
yield a decodable byte, a reserved byte (`continue`), or end-of-stream
(`break`). -/
def sysNext (s : Sys) : List Sys :=
  (match s.wpc with
   | WPc.check =>
       if s.running then [{ s with wpc := WPc.reading }]  -- loop test true, lock acquired
       else [{ s with wpc := WPc.exited }]                -- loop test false: run returns
   | WPc.reading =>
       [{ s with wpc := WPc.writing },                    -- byte read, decoded, non-reserved
        { s with wpc := WPc.check },                      -- reserved byte: `continue`
        { s with wpc := WPc.exited }]                     -- end-of-stream: `break`
   | WPc.writing => [{ s with wpc := WPc.beforeWait }]    -- `sink_.write(str)` returns
   | WPc.beforeWait => [{ s with wpc := WPc.waiting }]    -- `cv_.wait` releases lock, blocks
   | WPc.waiting => []                                    -- wakes only via a notify (below)
   | WPc.exited => [])
  ++
  (match s.spc with
   | SPc.idle =>
       if s.running then [{ s with running := false, spc := SPc.cleared }]
       else [{ s with spc := SPc.done }]                  -- `if (!running_) return;`
   | SPc.cleared =>
       if s.wpc = WPc.waiting
       then [{ s with wpc := WPc.check, spc := SPc.notified }]  -- wait returns, worker loops
       else [{ s with spc := SPc.notified }]              -- nobody waiting: notify is lost
   | SPc.notified => [{ s with spc := SPc.joining }]      -- reaches `thread_.join()`
   | SPc.joining =>
       if s.wpc = WPc.exited then [{ s with spc := SPc.done }]  -- join completes
       else []                                            -- join waits for the worker
   | SPc.done => [])

/-- One interleaved step. -/
def sysStep (a b : Sys) : Prop := b ∈ sysNext a

/-- State just after `start()`: worker at the top of its loop, `running_`
set, `stop()` not yet called. -/
def sysInit : Sys := { running := true, wpc := WPc.check, spc := SPc.idle }

/-- The missed-wakeup state: the worker is parked in `cv_.wait` with
`running_` already false, and the stopper is blocked in `thread_.join()`. -/
def deadState : Sys := { running := false, wpc := WPc.waiting, spc := SPc.joining }

/-! ## Claims -/

/-- C1: for every finite byte sequence delivered by the source before
end-of-stream, the strings the worker passes to the sink are exactly the
in-order renderings of the non-Reserved bytes — kind 00 as the unsigned
decimal of the payload, kind 01 as the signed decimal, kind 10 as the single
character `'a' + payload` — with no reordering, duplication or omission. -/
theorem run_writes_are_spec_renders (bs : List Nat) (h : ∀ b ∈ bs, b < 256) :
    writesOf (runEvents bs) = bs.filterMap specRender := by
  induction bs with
  | nil => rfl
  | cons b rest ih =>
    have hb : b < 256 := h b (List.mem_cons_self b rest)
    have hd : decodeByte b = specRender b := decodeByte_eq_specRender ⟨b, hb⟩
    have hrest := ih (fun x hx => h x (List.mem_cons_of_mem b hx))
    cases hs : specRender b with
    | none =>
      rw [hs] at hd
      simp [runEvents, writesOf, hd, hs, List.filterMap_cons]
      simpa [writesOf] using hrest
    | some s =>
      rw [hs] at hd
      simp [runEvents, writesOf, hd, hs, List.filterMap_cons]
      simpa [writesOf] using hrest

theorem run_writes_are_spec_renders_witness :
    writesOf (runEvents [5, 255, 129, 67]) = [5, 255, 129, 67].filterMap specRender :=
  run_writes_are_spec_renders [5, 255, 129, 67] (by decide)

/-- C2: every byte with kind bits 00 decodes to the decimal string of the
unsigned integer `b & 0x3F`; in particular `0b00000101` decodes to `"5"`. -/
theorem decode_kind00_unsigned :
    (∀ b : Fin 256, kindOf b.val = 0 →
        decodeByte b.val = some (toString (b.val &&& 0x3f)))
    ∧ decodeByte 0b00000101 = some "5" := by
  decide

theorem decode_kind00_unsigned_witness :
    decodeByte (5 : Nat) = some (toString ((5 : Nat) &&& 0x3f)) :=
  decode_kind00_unsigned.1 ⟨5, by decide⟩ (by decide)

/-- C3: for every byte with kind bits 01 the payload (masked to 6 bits)
reinterpreted through 8-bit two's complement is non-negative, and the
rendered signed-decimal string equals the one produced for the kind-00 byte
with the same payload. -/
theorem decode_kind01_signed_eq_unsigned :
    ∀ b : Fin 256, kindOf b.val = 1 →
      0 ≤ int8cast (dataBits b.val)
      ∧ decodeByte b.val = decodeByte (payloadOf b.val) := by
  decide

theorem decode_kind01_signed_eq_unsigned_witness :
    0 ≤ int8cast (dataBits 67) ∧ decodeByte (67 : Nat) = decodeByte (payloadOf 67) :=
  decode_kind01_signed_eq_unsigned ⟨67, by decide⟩ (by decide)

/-- C4: every byte with kind bits 10 renders as the single character
`'a' + payload` for every payload in [0,63]; for payload ≤ 25 that character
is a lowercase letter, for payload > 25 it lies past `'z'`; encoding a
payload p ∈ [0,25] as kind 10 and decoding round-trips to `chr('a'+p)`, and
`0b10000001` decodes to `"b"`. -/
theorem decode_kind10_letter :
    (∀ b : Fin 256, kindOf b.val = 2 →
        decodeByte b.val = some (String.singleton (Char.ofNat (97 + payloadOf b.val)))
        ∧ (payloadOf b.val ≤ 25 → (Char.ofNat (97 + payloadOf b.val)).isLower = true)
        ∧ (25 < payloadOf b.val → Char.ofNat 122 < Char.ofNat (97 + payloadOf b.val)))
    ∧ (∀ p : Fin 26,
        decodeByte (mkByte 2 p.val) = some (String.singleton (Char.ofNat (97 + p.val))))
    ∧ decodeByte 0b10000001 = some "b" := by
  decide

theorem decode_kind10_letter_witness :
    decodeByte (mkByte 2 1) = some (String.singleton (Char.ofNat (97 + 1))) :=
  decode_kind10_letter.2.1 ⟨1, by decide⟩

/-- C5: a byte with kind bits 11 (Reserved) makes the worker emit nothing for
that byte and continue directly with the next read: its only trace event is
the read itself — no `wrote`, and no `waited` (the end-of-iteration pause is
skipped, the worker does not block on the wait condition that iteration). -/
theorem decode_kind11_reserved_skips (b : Fin 256) (h : kindOf b.val = 3) :
    decodeByte b.val = none
    ∧ ∀ rest, runEvents (b.val :: rest) = Event.readByte b.val :: runEvents rest := by
  have hall : ∀ b : Fin 256, kindOf b.val = 3 → decodeByte b.val = none := by decide
  have hd : decodeByte b.val = none := hall b h
  exact ⟨hd, fun rest => by simp [runEvents, hd]⟩

theorem decode_kind11_reserved_skips_witness :
    decodeByte (255 : Nat) = none
    ∧ runEvents [255, 5] = Event.readByte 255 :: runEvents [5] :=
  ⟨(decode_kind11_reserved_skips ⟨255, by decide⟩ (by decide)).1,
   (decode_kind11_reserved_skips ⟨255, by decide⟩ (by decide)).2 [5]⟩

/-- C6: at end-of-stream the worker exits without emitting and without any
further read: on an empty source the trace is the single failed read (the
sink receives zero writes), and on any source the failed read is the last
event of the whole trace and occurs exactly once — after the source reports
end-of-stream the converter never reads again. -/
theorem run_eos_exits_cleanly :
    runEvents [] = [Event.readEOS]
    ∧ writesOf (runEvents []) = []
    ∧ ∀ bs : List Nat, ∃ pre : List Event,
        runEvents bs = pre ++ [Event.readEOS] ∧ Event.readEOS ∉ pre := by
  refine ⟨rfl, rfl, ?_⟩
  intro bs
  induction bs with
  | nil => exact ⟨[], rfl, by simp⟩
  | cons b rest ih =>
    obtain ⟨pre, hpre, hnot⟩ := ih
    cases hd : decodeByte b with
    | none =>
      exact ⟨Event.readByte b :: pre, by simp [runEvents, hd, hpre], by simp [hnot]⟩
    | some s =>
      exact ⟨Event.readByte b :: Event.wrote s :: Event.waited :: pre,
        by simp [runEvents, hd, hpre], by simp [hnot]⟩

theorem run_eos_exits_cleanly_witness :
    ∃ pre : List Event, runEvents [5] = pre ++ [Event.readEOS] ∧ Event.readEOS ∉ pre :=
  run_eos_exits_cleanly.2.2 [5]

/-- C7: `start()` is idempotent — on a Running converter it is a no-op, two
consecutive calls have the same observable effect as one, and a call on a
non-running converter spawns exactly one worker task. -/
theorem start_idempotent (c : ConvState) :
    Converter.start (Converter.start c) = Converter.start c
    ∧ (c.running = true → Converter.start c = c)
    ∧ (c.running = false →
        (Converter.start c).running = true
        ∧ (Converter.start c).worker = WorkerStatus.active
        ∧ (Converter.start c).spawns = c.spawns + 1) := by
  by_cases h : c.running <;> simp [Converter.start, h]

theorem start_idempotent_witness :
    Converter.start (Converter.start ⟨false, WorkerStatus.noWorker, 0⟩)
      = Converter.start ⟨false, WorkerStatus.noWorker, 0⟩
    ∧ (Converter.start ⟨false, WorkerStatus.noWorker, 0⟩).spawns = 0 + 1 :=
  ⟨(start_idempotent ⟨false, WorkerStatus.noWorker, 0⟩).1,
   ((start_idempotent ⟨false, WorkerStatus.noWorker, 0⟩).2.2 rfl).2.2⟩

/-- C8: `stop()` is safe when no worker needs stopping — a second consecutive
call finds `running_` false, takes the early return and neither blocks nor
throws (and leaves the state unchanged), and a call made after the worker
already exited on end-of-stream also returns promptly without throwing. -/
theorem stop_idempotent_safe (c : ConvState) :
    Converter.stop (Converter.stop c) = Converter.stop c
    ∧ Converter.stopSafe (Converter.stop c) = true
    ∧ (c.worker = WorkerStatus.finished → Converter.stopSafe c = true) := by
  refine ⟨?_, ?_, ?_⟩
  · by_cases h : c.running <;> simp [Converter.stop, h]
  · by_cases h : c.running <;> simp [Converter.stop, Converter.stopSafe, h]
  · intro hw
    by_cases h : c.running <;> simp [Converter.stopSafe, h, hw]

theorem stop_idempotent_safe_witness :
    Converter.stop (Converter.stop ⟨true, WorkerStatus.finished, 1⟩)
      = Converter.stop ⟨true, WorkerStatus.finished, 1⟩
    ∧ Converter.stopSafe ⟨true, WorkerStatus.finished, 1⟩ = true :=
  ⟨(stop_idempotent_safe ⟨true, WorkerStatus.finished, 1⟩).1,
   (stop_idempotent_safe ⟨true, WorkerStatus.finished, 1⟩).2.2 rfl⟩

/-- C10: after the worker exits on end-of-stream the `running_` flag is left
`true`, so every subsequent `start()` is a no-op (it spawns no new worker);
only after `stop()` clears the flag and joins the finished thread does
`start()` spawn a worker again. -/
theorem eos_exit_blocks_restart (c : ConvState) :
    (Converter.eosExit (Converter.start c)).running = true
    ∧ Converter.start (Converter.eosExit (Converter.start c))
        = Converter.eosExit (Converter.start c)
    ∧ (Converter.stop (Converter.eosExit (Converter.start c))).running = false
    ∧ (Converter.stop (Converter.eosExit (Converter.start c))).worker = WorkerStatus.noWorker
    ∧ (Converter.start (Converter.stop (Converter.eosExit (Converter.start c)))).spawns
        = (Converter.start c).spawns + 1 := by
  by_cases h : c.running <;>
    simp [Converter.start, Converter.stop, Converter.eosExit, h]

theorem eos_exit_blocks_restart_witness :
    Converter.start (Converter.eosExit (Converter.start ⟨false, WorkerStatus.noWorker, 0⟩))
      = Converter.eosExit (Converter.start ⟨false, WorkerStatus.noWorker, 0⟩)
    ∧ (Converter.eosExit (Converter.start ⟨false, WorkerStatus.noWorker, 0⟩)).running = true :=
  ⟨(eos_exit_blocks_restart ⟨false, WorkerStatus.noWorker, 0⟩).2.1,
   (eos_exit_blocks_restart ⟨false, WorkerStatus.noWorker, 0⟩).1⟩

/-- C9 fails on the code: `stop()` writes `running_` and calls
`cv_.notify_all()` without holding the mutex used by `cv_.wait`, and the wait
has no predicate, so the wake signal CAN be missed.  Concretely: from the
state right after `start()`, the worker can read a byte, write it to the
sink, and — before it reaches `cv_.wait` — the stopper can run `stop()` up
to and including the notification; the notification finds no waiter and is
lost, the worker then blocks in `cv_.wait` and the stopper blocks in
`thread_.join()`.  That joint state is reachable and has no successor: the
worker is never woken and `stop()` never returns. -/
theorem stop_missed_wakeup_deadlock :
    Relation.ReflTransGen sysStep sysInit deadState
    ∧ deadState.wpc = WPc.waiting
    ∧ deadState.spc = SPc.joining
    ∧ sysNext deadState = [] := by
  refine ⟨?_, rfl, rfl, rfl⟩
  have h1 : sysStep sysInit { running := true, wpc := WPc.reading, spc := SPc.idle } := by
    unfold sysStep; decide
  have h2 : sysStep { running := true, wpc := WPc.reading, spc := SPc.idle }
      { running := true, wpc := WPc.writing, spc := SPc.idle } := by unfold sysStep; decide
  have h3 : sysStep { running := true, wpc := WPc.writing, spc := SPc.idle }
      { running := true, wpc := WPc.beforeWait, spc := SPc.idle } := by unfold sysStep; decide
  have h4 : sysStep { running := true, wpc := WPc.beforeWait, spc := SPc.idle }
      { running := false, wpc := WPc.beforeWait, spc := SPc.cleared } := by unfold sysStep; decide
  have h5 : sysStep { running := false, wpc := WPc.beforeWait, spc := SPc.cleared }
      { running := false, wpc := WPc.beforeWait, spc := SPc.notified } := by unfold sysStep; decide
  have h6 : sysStep { running := false, wpc := WPc.beforeWait, spc := SPc.notified }
      { running := false, wpc := WPc.waiting, spc := SPc.notified } := by unfold sysStep; decide
  have h7 : sysStep { running := false, wpc := WPc.waiting, spc := SPc.notified }
      deadState := by unfold sysStep; decide
  exact Relation.ReflTransGen.head h1 (Relation.ReflTransGen.head h2
    (Relation.ReflTransGen.head h3 (Relation.ReflTransGen.head h4
      (Relation.ReflTransGen.head h5 (Relation.ReflTransGen.head h6
        (Relation.ReflTransGen.head h7 Relation.ReflTransGen.refl))))))
